import Mathlib

/-!
# mcp-k8s: the tool handlers of `cmd/server/main.go`

A shallow embedding of the two tool handlers registered by `main`:

* `helloHandler` (tool `hello_world`), lines 113-120;
* `newPodInspectHandler` (tool `pod_inspect`), lines 71-97.

Go values are embedded as follows.

* `request.Params.Arguments` is a `map[string]interface{}` holding decoded JSON; it
  is an association list of `Value`s, and indexing a missing key gives the nil
  interface (`Value.null`), as Go map indexing does.
* A handler returns `(*mcp.CallToolResult, error)` or panics; this is `Outcome`.
* The cluster client is external; the call
  `clientset.CoreV1().Pods(ns).Get(ctx, name, v1.GetOptions{})` is the field
  `Clientset.Get`, a function from namespace and name to a pod or an error.
* `pod.Status.ContainerStatuses` is a Go slice that may be nil; it is an
  `Option (List ContainerStatus)`, `none` being the nil slice and `some []` the
  empty non-nil slice.
* `fmt.Sprintf` with `%s` on a string and `%d` on an `int` is string
  concatenation.  The `%s` rendering of a `v1.ContainerState` struct is decided
  by the Kubernetes API library, so the handler takes it as the parameter
  `sprintState`.
-/

namespace McpK8s

/-! ## Decoded JSON arguments -/

/-- A decoded JSON value, as stored in a Go `interface{}`. -/
inductive Value where
  | null
  | bool (b : Bool)
  | number (n : Int)
  | str (s : String)
  | array (xs : List Value)
  | object (fields : List (String × Value))

/-- The type `map[string]interface{}` of `request.Params.Arguments`. -/
abbrev Arguments := List (String × Value)

/-- Go map indexing `m[key]`: the stored value, or the nil interface when the key is missing. -/
def Arguments.index (m : Arguments) (key : String) : Value :=
  (m.lookup key).getD Value.null

/-- The comma-ok type assertion `v.(string)`: `some s` when `v` holds a string, else `none`. -/
def Value.assertString : Value → Option String
  | .str s => some s
  | _ => none

/-- The parameters of a tool call. -/
structure CallToolParams where
  Name : String
  Arguments : Arguments

/-- The type `mcp.CallToolRequest`, reduced to the part the handlers read. -/
structure CallToolRequest where
  Params : CallToolParams

/-! ## Tool results -/

/-- One content item of a tool result; the handlers only build text items. -/
structure TextContent where
  Type_ : String
  Text : String
deriving DecidableEq, Repr

/-- The type `mcp.CallToolResult`. -/
structure CallToolResult where
  Content : List TextContent
  IsError : Bool
deriving DecidableEq, Repr

/-- The constructor `mcp.NewToolResultText`. -/
def NewToolResultText (text : String) : CallToolResult :=
  { Content := [{ Type_ := "text", Text := text }], IsError := false }

/-- What a handler call does: return `(result, nil)`, return `(nil, err)` with the
error's message, or panic at run time. -/
inductive Outcome where
  | ok (result : CallToolResult)
  | error (message : String)
  | panic
deriving DecidableEq, Repr

/-! ## Kubernetes objects -/

/-- The type `v1.ContainerStateWaiting`. -/
structure ContainerStateWaiting where
  Reason : String
  Message : String
deriving DecidableEq, Repr

/-- The type `v1.ContainerStateRunning`; the timestamp is kept in its printed form. -/
structure ContainerStateRunning where
  StartedAt : String
deriving DecidableEq, Repr

/-- The type `v1.ContainerStateTerminated`; timestamps are kept in their printed form. -/
structure ContainerStateTerminated where
  ExitCode : Int
  Signal : Int
  Reason : String
  Message : String
  StartedAt : String
  FinishedAt : String
  ContainerID : String
deriving DecidableEq, Repr

/-- The type `v1.ContainerState`: three pointers, at most one of them set. -/
structure ContainerState where
  Waiting : Option ContainerStateWaiting
  Running : Option ContainerStateRunning
  Terminated : Option ContainerStateTerminated
deriving DecidableEq, Repr

/-- The type `v1.ContainerStatus`, reduced to the fields the handler and the claims refer to. -/
structure ContainerStatus where
  Name : String
  RestartCount : Int
  LastTerminationState : ContainerState
deriving DecidableEq, Repr

/-- The type `v1.Container`, an entry of `pod.Spec.Containers`. -/
structure Container where
  Name : String
  Image : String
deriving DecidableEq, Repr

/-- The type `v1.PodSpec`. -/
structure PodSpec where
  Containers : List Container
deriving DecidableEq, Repr

/-- The type `v1.PodStatus`; `none` is the nil slice. -/
structure PodStatus where
  ContainerStatuses : Option (List ContainerStatus)
deriving DecidableEq, Repr

/-- The type `v1.Pod`. -/
structure Pod where
  Name : String
  Namespace : String
  Spec : PodSpec
  Status : PodStatus
deriving DecidableEq, Repr

/-- The cluster client: `Get namespace name` is
`clientset.CoreV1().Pods(namespace).Get(ctx, name, v1.GetOptions{})`, giving the pod
or the message of the error. -/
structure Clientset where
  Get : String → String → Except String Pod

/-! ## The handlers -/

/-- The handler `helloHandler`, lines 113-120. -/
def helloHandler (request : CallToolRequest) : Outcome :=
  match (request.Params.Arguments.index "name").assertString with
  | none => Outcome.error "name must be a string"
  | some name =>
    Outcome.ok (NewToolResultText ("Hello, " ++ name ++ "!, this is greeting from mcp."))

/-- The text of line 89: `"Pod %s in namespace %s restart with status %s"`. -/
def restartText (sprintState : ContainerState → String) (pod : Pod)
    (container : ContainerStatus) : String :=
  "Pod " ++ pod.Name ++ " in namespace " ++ pod.Namespace ++ " restart with status "
    ++ sprintState container.LastTerminationState

/-- The text of line 93: `"Pod %s in namespace %s has %d containers"`. -/
def containersText (pod : Pod) : String :=
  "Pod " ++ pod.Name ++ " in namespace " ++ pod.Namespace ++ " has "
    ++ toString pod.Spec.Containers.length ++ " containers"

/-- The text of line 95: `"Pod %s in namespace %s not found"`. -/
def notFoundText (pod : Pod) : String :=
  "Pod " ++ pod.Name ++ " in namespace " ++ pod.Namespace ++ " not found"

/-- The body of the `for ... range` loop, lines 88-93, for one element: `some r` when
the body returns `r`, `none` when it falls through to the next iteration.  Both
branches of the source return. -/
def loopBody (sprintState : ContainerState → String) (pod : Pod)
    (container : ContainerStatus) : Option Outcome :=
  if container.RestartCount > 0 then
    some (Outcome.ok (NewToolResultText (restartText sprintState pod container)))
  else
    some (Outcome.ok (NewToolResultText (containersText pod)))

/-- The loop of lines 87-94 followed by the return of line 95. -/
def rangeLoop (sprintState : ContainerState → String) (pod : Pod) :
    List ContainerStatus → Outcome
  | [] => Outcome.ok (NewToolResultText (notFoundText pod))
  | container :: rest =>
    match loopBody sprintState pod container with
    | some r => r
    | none => rangeLoop sprintState pod rest

/-- The handler returned by `newPodInspectHandler`, lines 72-96.  The namespace is
read with the single-value type assertion of line 78, which panics when the value
is not a string; it is evaluated before `Get` is called. -/
def newPodInspectHandler (sprintState : ContainerState → String) (clientset : Clientset)
    (request : CallToolRequest) : Outcome :=
  match (request.Params.Arguments.index "name").assertString with
  | none => Outcome.error "name must be a string"
  | some name =>
    match (request.Params.Arguments.index "namespace").assertString with
    | none => Outcome.panic
    | some namespace_ =>
      match clientset.Get namespace_ name with
      | Except.error err => Outcome.error err
      | Except.ok pod =>
        match pod.Status.ContainerStatuses with
        | none => Outcome.error "pod has no container statuses"
        | some statuses => rangeLoop sprintState pod statuses

/-! ## Reading a result text -/

/-- Whether the characters `sub` open the characters `text`. -/
def startsWith : List Char → List Char → Bool
  | [], _ => true
  | _ :: _, [] => false
  | a :: sub, b :: text => a == b && startsWith sub text

/-- Whether the characters `sub` occur contiguously somewhere in `text`. -/
def occursIn (sub : List Char) : List Char → Bool
  | [] => sub.isEmpty
  | c :: text => startsWith sub (c :: text) || occursIn sub text

/-- The text `text` mentions `sub`: `sub` is a substring of it (Go `strings.Contains`). -/
def mentions (text sub : String) : Bool :=
  occursIn sub.data text.data

/-- The text of an outcome, when it is a single text item and not an error. -/
def Outcome.text : Outcome → Option String
  | Outcome.ok { Content := [item], IsError := false } => some item.Text
  | _ => none

/-! ## A concrete rendering of container states

The theorems below hold for every rendering `sprintState`.  Concrete inputs use
the rendering that `fmt` produces for a `v1.ContainerState` value under `%s`
when the three pointer fields print through their generated `String` methods:
the fields between braces, separated by blanks, a nil pointer printed as `nil`. -/

/-- The printed form of the `Waiting` field. -/
def waitingString : Option ContainerStateWaiting → String
  | none => "nil"
  | some w => "&ContainerStateWaiting\x7bReason:" ++ w.Reason ++ ",Message:" ++ w.Message ++ ",\x7d"

/-- The printed form of the `Running` field. -/
def runningString : Option ContainerStateRunning → String
  | none => "nil"
  | some r => "&ContainerStateRunning\x7bStartedAt:" ++ r.StartedAt ++ ",\x7d"

/-- The printed form of the `Terminated` field. -/
def terminatedString : Option ContainerStateTerminated → String
  | none => "nil"
  | some t =>
    "&ContainerStateTerminated\x7bExitCode:" ++ toString t.ExitCode
      ++ ",Signal:" ++ toString t.Signal
      ++ ",Reason:" ++ t.Reason
      ++ ",Message:" ++ t.Message
      ++ ",StartedAt:" ++ t.StartedAt
      ++ ",FinishedAt:" ++ t.FinishedAt
      ++ ",ContainerID:" ++ t.ContainerID ++ ",\x7d"

/-- The printed form of a container state under `%s`. -/
def sprintContainerState (s : ContainerState) : String :=
  "\x7b" ++ waitingString s.Waiting ++ " " ++ runningString s.Running ++ " "
    ++ terminatedString s.Terminated ++ "\x7d"

/-! ## Concrete inputs -/

/-- A state with none of the three pointers set. -/
def noState : ContainerState :=
  { Waiting := none, Running := none, Terminated := none }

/-- The last termination state of a container killed for exceeding its memory limit. -/
def oomKilled : ContainerState :=
  { Waiting := none, Running := none,
    Terminated := some
      { ExitCode := 137, Signal := 0, Reason := "OOMKilled", Message := "",
        StartedAt := "2024-05-01 10:00:00 +0000 UTC",
        FinishedAt := "2024-05-01 10:05:00 +0000 UTC",
        ContainerID := "containerd://5f1c" } }

/-- The last termination state of a container that exited with an error. -/
def exitedWithError : ContainerState :=
  { Waiting := none, Running := none,
    Terminated := some
      { ExitCode := 1, Signal := 0, Reason := "Error", Message := "",
        StartedAt := "2024-05-01 11:00:00 +0000 UTC",
        FinishedAt := "2024-05-01 11:00:02 +0000 UTC",
        ContainerID := "containerd://9a2e" } }

/-- The declared containers of the example pod. -/
def webContainers : List Container :=
  [{ Name := "app", Image := "web:1.4" }, { Name := "sidecar", Image := "envoy:1.30" }]

/-- The pod `web-7f` of namespace `prod` with the given container statuses. -/
def webPod (statuses : Option (List ContainerStatus)) : Pod :=
  { Name := "web-7f", Namespace := "prod",
    Spec := { Containers := webContainers },
    Status := { ContainerStatuses := statuses } }

/-- A cluster client that answers every fetch with the given pod. -/
def clientReturning (pod : Pod) : Clientset :=
  { Get := fun _ _ => Except.ok pod }

/-- A cluster client whose every fetch fails with the given error message. -/
def clientFailing (message : String) : Clientset :=
  { Get := fun _ _ => Except.error message }

/-- A `pod_inspect` call with the given arguments. -/
def podInspectCall (arguments : Arguments) : CallToolRequest :=
  { Params := { Name := "pod_inspect", Arguments := arguments } }

/-- A `hello_world` call with the given arguments. -/
def helloCall (arguments : Arguments) : CallToolRequest :=
  { Params := { Name := "hello_world", Arguments := arguments } }

/-- The call `pod_inspect(name = "web-7f", namespace = "prod")`. -/
def inspectWeb : CallToolRequest :=
  podInspectCall [("name", Value.str "web-7f"), ("namespace", Value.str "prod")]

/-! ## Shared lemmas -/

/-- A value that holds a string passes the string type assertion. -/
theorem assertString_of_str {v : Value} {s : String} (h : v = Value.str s) :
    v.assertString = some s := by
  subst h; rfl

/-- A value passes the string type assertion only when it holds that string. -/
theorem str_of_assertString {v : Value} {s : String} (h : v.assertString = some s) :
    v = Value.str s := by
  cases v <;> simp [Value.assertString] at h
  subst h; rfl

/-- The loop returns in its first iteration: on a non-empty slice its result is
decided by the first element. -/
theorem rangeLoop_cons (sprintState : ContainerState → String) (pod : Pod)
    (container : ContainerStatus) (rest : List ContainerStatus) :
    rangeLoop sprintState pod (container :: rest) =
      if container.RestartCount > 0 then
        Outcome.ok (NewToolResultText (restartText sprintState pod container))
      else
        Outcome.ok (NewToolResultText (containersText pod)) := by
  unfold rangeLoop loopBody
  split_ifs <;> rfl

/-- With string arguments the handler is decided by the answer of the fetch. -/
theorem handler_of_string_args (sprintState : ContainerState → String)
    (clientset : Clientset) (request : CallToolRequest) (name ns : String)
    (hname : request.Params.Arguments.index "name" = Value.str name)
    (hns : request.Params.Arguments.index "namespace" = Value.str ns) :
    newPodInspectHandler sprintState clientset request =
      match clientset.Get ns name with
      | Except.error err => Outcome.error err
      | Except.ok pod =>
        match pod.Status.ContainerStatuses with
        | none => Outcome.error "pod has no container statuses"
        | some statuses => rangeLoop sprintState pod statuses := by
  unfold newPodInspectHandler
  rw [assertString_of_str hname, assertString_of_str hns]

/-- After a successful fetch of a pod with a non-nil status slice the handler
runs the loop on it. -/
theorem handler_of_fetched (sprintState : ContainerState → String)
    (clientset : Clientset) (request : CallToolRequest) (name ns : String) (pod : Pod)
    (statuses : List ContainerStatus)
    (hname : request.Params.Arguments.index "name" = Value.str name)
    (hns : request.Params.Arguments.index "namespace" = Value.str ns)
    (hget : clientset.Get ns name = Except.ok pod)
    (hst : pod.Status.ContainerStatuses = some statuses) :
    newPodInspectHandler sprintState clientset request =
      rangeLoop sprintState pod statuses := by
  rw [handler_of_string_args sprintState clientset request name ns hname hns, hget]
  simp only [hst]

/-- The greeting template determines the name it was built from. -/
theorem greeting_injective {s t : String}
    (h : "Hello, " ++ s ++ "!, this is greeting from mcp."
      = "Hello, " ++ t ++ "!, this is greeting from mcp.") : s = t := by
  have h2 := congrArg String.data h
  simp only [String.data_append] at h2
  have h3 := List.append_cancel_right h2
  have h4 := List.append_cancel_left h3
  exact String.ext h4

/-- The text constructor of tool results is injective. -/
theorem NewToolResultText_injective {a b : String}
    (h : NewToolResultText a = NewToolResultText b) : a = b := by
  simpa [NewToolResultText] using h

/-! ## The hello_world handler -/

/-- C9: when the "name" argument of a hello_world call is a string s, the handler
succeeds with the text "Hello, " ++ s ++ "!, this is greeting from mcp.", and a second
call whose "name" argument is the same returns the same result, whatever its
other arguments are. -/
theorem hello_greeting_template (request other : CallToolRequest) (s : String)
    (hname : request.Params.Arguments.index "name" = Value.str s)
    (hsame : other.Params.Arguments.index "name" = request.Params.Arguments.index "name") :
    helloHandler request
        = Outcome.ok (NewToolResultText ("Hello, " ++ s ++ "!, this is greeting from mcp."))
      ∧ helloHandler other = helloHandler request := by
  have hother : other.Params.Arguments.index "name" = Value.str s := by rw [hsame, hname]
  unfold helloHandler
  rw [assertString_of_str hname, assertString_of_str hother]
  exact ⟨rfl, rfl⟩

/-- C9, at a concrete call: name "Ada", next to a call that adds other arguments. -/
theorem hello_greeting_template_witness :
    (helloCall [("name", Value.str "Ada")]).Params.Arguments.index "name" = Value.str "Ada"
      ∧ helloHandler (helloCall [("name", Value.str "Ada")])
          = Outcome.ok (NewToolResultText "Hello, Ada!, this is greeting from mcp.")
      ∧ helloHandler (helloCall [("lang", Value.str "fr"), ("name", Value.str "Ada"),
            ("count", Value.number 3)])
          = helloHandler (helloCall [("name", Value.str "Ada")]) :=
  ⟨rfl,
    hello_greeting_template (helloCall [("name", Value.str "Ada")])
      (helloCall [("lang", Value.str "fr"), ("name", Value.str "Ada"),
        ("count", Value.number 3)]) "Ada" rfl rfl⟩

/-- C8, as the code has it: the handler returns the error "name must be a string"
exactly when the "name" argument is absent or not a string, and it returns the
greeting built from s exactly when the argument is the string s, the empty string
included. -/
theorem hello_error_iff_name_not_string (request : CallToolRequest) :
    (helloHandler request = Outcome.error "name must be a string"
        ↔ ¬ ∃ s, request.Params.Arguments.index "name" = Value.str s)
      ∧ ∀ s : String,
          helloHandler request
              = Outcome.ok (NewToolResultText ("Hello, " ++ s ++ "!, this is greeting from mcp."))
            ↔ request.Params.Arguments.index "name" = Value.str s := by
  unfold helloHandler
  cases hv : (request.Params.Arguments.index "name").assertString with
  | none =>
    refine ⟨⟨fun _ => ?_, fun _ => rfl⟩, fun s => ⟨fun h => ?_, fun h => ?_⟩⟩
    · rintro ⟨s, hs⟩
      rw [assertString_of_str hs] at hv
      cases hv
    · cases h
    · rw [assertString_of_str h] at hv
      cases hv
  | some name =>
    have hstr := str_of_assertString hv
    refine ⟨⟨fun h => ?_, fun h => ?_⟩, fun s => ⟨fun h => ?_, fun h => ?_⟩⟩
    · cases h
    · exact absurd ⟨name, hstr⟩ h
    · have h2 := greeting_injective (NewToolResultText_injective (Outcome.ok.inj h))
      rw [hstr, h2]
    · rw [hstr] at h
      cases h
      rfl

/-- C8 fails on the empty string: a hello_world call with name "" is answered with
a greeting, not with a validation error. -/
theorem hello_empty_name_greets :
    helloHandler (helloCall [("name", Value.str "")])
      = Outcome.ok (NewToolResultText "Hello, !, this is greeting from mcp.") := by
  decide

/-! ## The pod_inspect handler: arguments and fetch -/

/-- C6, at the failing inputs: a pod_inspect call whose "name" is a string and
whose "namespace" is missing, or is a number, makes the handler panic in the type
assertion of line 78; no validation error is returned. -/
theorem pod_inspect_bad_namespace_panics :
    newPodInspectHandler sprintContainerState (clientReturning (webPod none))
        (podInspectCall [("name", Value.str "web-7f")]) = Outcome.panic
      ∧ newPodInspectHandler sprintContainerState (clientReturning (webPod none))
        (podInspectCall [("name", Value.str "web-7f"), ("namespace", Value.number 7)])
          = Outcome.panic := by
  exact ⟨rfl, rfl⟩

/-- C7, as the code has it: when "name" and "namespace" are strings and the fetch
fails, the handler returns an error (no text result, no panic) whose message is
the message of the fetch error, unchanged. -/
theorem pod_inspect_fetch_failure_passes_error (sprintState : ContainerState → String)
    (clientset : Clientset) (request : CallToolRequest) (name ns err : String)
    (hname : request.Params.Arguments.index "name" = Value.str name)
    (hns : request.Params.Arguments.index "namespace" = Value.str ns)
    (hget : clientset.Get ns name = Except.error err) :
    newPodInspectHandler sprintState clientset request = Outcome.error err := by
  rw [handler_of_string_args sprintState clientset request name ns hname hns, hget]

/-- C7 amended, at a concrete call: the fetch of web-7f in prod fails with the
cluster's not-found message. -/
theorem pod_inspect_fetch_failure_passes_error_witness :
    inspectWeb.Params.Arguments.index "name" = Value.str "web-7f"
      ∧ inspectWeb.Params.Arguments.index "namespace" = Value.str "prod"
      ∧ (clientFailing "pods \"web-7f\" not found").Get "prod" "web-7f"
          = Except.error "pods \"web-7f\" not found"
      ∧ newPodInspectHandler sprintContainerState (clientFailing "pods \"web-7f\" not found")
          inspectWeb = Outcome.error "pods \"web-7f\" not found" :=
  ⟨rfl, rfl, rfl,
    pod_inspect_fetch_failure_passes_error sprintContainerState
      (clientFailing "pods \"web-7f\" not found") inspectWeb "web-7f" "prod"
      "pods \"web-7f\" not found" rfl rfl rfl⟩

/-- C7 fails when the fetch error does not carry the reference: for web-7f in prod
and a failure "connection refused", the returned message mentions neither the name
nor the namespace; for the not-found message of the cluster it mentions the name
and not the namespace. -/
theorem pod_inspect_fetch_failure_lacks_ref :
    newPodInspectHandler sprintContainerState (clientFailing "connection refused") inspectWeb
        = Outcome.error "connection refused"
      ∧ mentions "connection refused" "web-7f" = false
      ∧ mentions "connection refused" "prod" = false
      ∧ newPodInspectHandler sprintContainerState (clientFailing "pods \"web-7f\" not found")
          inspectWeb = Outcome.error "pods \"web-7f\" not found"
      ∧ mentions "pods \"web-7f\" not found" "prod" = false := by
  refine ⟨rfl, ?_, ?_, rfl, ?_⟩ <;> decide

/-! ## The pod_inspect handler: absent and empty statuses -/

/-- C3, as the code has it: when the fetch succeeds with a pod whose
containerStatuses is nil, the handler returns the error "pod has no container
statuses" and no text result. -/
theorem pod_inspect_absent_statuses_is_error (sprintState : ContainerState → String)
    (clientset : Clientset) (request : CallToolRequest) (name ns : String) (pod : Pod)
    (hname : request.Params.Arguments.index "name" = Value.str name)
    (hns : request.Params.Arguments.index "namespace" = Value.str ns)
    (hget : clientset.Get ns name = Except.ok pod)
    (hst : pod.Status.ContainerStatuses = none) :
    newPodInspectHandler sprintState clientset request
      = Outcome.error "pod has no container statuses" := by
  rw [handler_of_string_args sprintState clientset request name ns hname hns, hget]
  simp only [hst]

/-- C3 amended, at a concrete call: web-7f in prod, fetched without statuses. -/
theorem pod_inspect_absent_statuses_is_error_witness :
    inspectWeb.Params.Arguments.index "name" = Value.str "web-7f"
      ∧ inspectWeb.Params.Arguments.index "namespace" = Value.str "prod"
      ∧ (clientReturning (webPod none)).Get "prod" "web-7f" = Except.ok (webPod none)
      ∧ (webPod none).Status.ContainerStatuses = none
      ∧ newPodInspectHandler sprintContainerState (clientReturning (webPod none)) inspectWeb
          = Outcome.error "pod has no container statuses" :=
  ⟨rfl, rfl, rfl, rfl,
    pod_inspect_absent_statuses_is_error sprintContainerState (clientReturning (webPod none))
      inspectWeb "web-7f" "prod" (webPod none) rfl rfl rfl rfl⟩

/-- C3 fails: for web-7f in prod fetched with containerStatuses nil the handler
returns an error, so its outcome carries no text. -/
theorem pod_inspect_absent_statuses_not_text :
    newPodInspectHandler sprintContainerState (clientReturning (webPod none)) inspectWeb
        = Outcome.error "pod has no container statuses"
      ∧ (newPodInspectHandler sprintContainerState (clientReturning (webPod none))
          inspectWeb).text = none := by
  exact ⟨rfl, rfl⟩

/-- C4, as the code has it: when the fetch succeeds with a pod whose
containerStatuses is present and empty, the handler returns the text
"Pod <name> in namespace <namespace> not found", built from the fetched pod; this
outcome differs from the one for the same pod with containerStatuses nil. -/
theorem pod_inspect_empty_statuses_not_found_text (sprintState : ContainerState → String)
    (clientset absent : Clientset) (request : CallToolRequest) (name ns : String) (pod : Pod)
    (hname : request.Params.Arguments.index "name" = Value.str name)
    (hns : request.Params.Arguments.index "namespace" = Value.str ns)
    (hget : clientset.Get ns name = Except.ok pod)
    (hst : pod.Status.ContainerStatuses = some [])
    (habsent : absent.Get ns name
      = Except.ok { pod with Status := { ContainerStatuses := none } }) :
    newPodInspectHandler sprintState clientset request
        = Outcome.ok (NewToolResultText
            ("Pod " ++ pod.Name ++ " in namespace " ++ pod.Namespace ++ " not found"))
      ∧ newPodInspectHandler sprintState clientset request
        ≠ newPodInspectHandler sprintState absent request := by
  have h1 := handler_of_fetched sprintState clientset request name ns pod [] hname hns hget hst
  have h2 := handler_of_string_args sprintState absent request name ns hname hns
  rw [habsent] at h2
  rw [h1, h2]
  exact ⟨rfl, fun h => by cases h⟩

/-- C4 amended, at a concrete call: web-7f in prod, fetched with an empty slice. -/
theorem pod_inspect_empty_statuses_not_found_text_witness :
    inspectWeb.Params.Arguments.index "name" = Value.str "web-7f"
      ∧ inspectWeb.Params.Arguments.index "namespace" = Value.str "prod"
      ∧ (clientReturning (webPod (some []))).Get "prod" "web-7f" = Except.ok (webPod (some []))
      ∧ (webPod (some [])).Status.ContainerStatuses = some []
      ∧ (clientReturning (webPod none)).Get "prod" "web-7f" = Except.ok (webPod none)
      ∧ newPodInspectHandler sprintContainerState (clientReturning (webPod (some []))) inspectWeb
          = Outcome.ok (NewToolResultText "Pod web-7f in namespace prod not found")
      ∧ newPodInspectHandler sprintContainerState (clientReturning (webPod (some []))) inspectWeb
          ≠ newPodInspectHandler sprintContainerState (clientReturning (webPod none))
              inspectWeb :=
  ⟨rfl, rfl, rfl, rfl, rfl,
    pod_inspect_empty_statuses_not_found_text sprintContainerState
      (clientReturning (webPod (some []))) (clientReturning (webPod none)) inspectWeb
      "web-7f" "prod" (webPod (some [])) rfl rfl rfl rfl rfl⟩

/-- C4 fails: for web-7f in prod fetched with an empty containerStatuses the text is
"Pod web-7f in namespace prod not found", which mentions no container, no status
and no zero count. -/
theorem pod_inspect_empty_statuses_no_zero_count :
    newPodInspectHandler sprintContainerState (clientReturning (webPod (some []))) inspectWeb
        = Outcome.ok (NewToolResultText "Pod web-7f in namespace prod not found")
      ∧ mentions "Pod web-7f in namespace prod not found" "container" = false
      ∧ mentions "Pod web-7f in namespace prod not found" "status" = false
      ∧ mentions "Pod web-7f in namespace prod not found" "zero" = false
      ∧ mentions "Pod web-7f in namespace prod not found" "0" = false := by
  refine ⟨rfl, ?_, ?_, ?_, ?_⟩ <;> decide

/-! ## The pod_inspect handler: the loop over container statuses -/

/-- C10: when two fetches succeed with pods of the same name, namespace and declared
container count whose containerStatuses are non-empty with the same first entry,
the handler returns the same result for both, whatever the later entries are: the
restart text built from the first entry when its restartCount is positive, and the
container-count text otherwise. -/
theorem pod_inspect_first_status_decides (sprintState : ContainerState → String)
    (clientset1 clientset2 : Clientset) (request1 request2 : CallToolRequest)
    (name1 ns1 name2 ns2 : String) (pod1 pod2 : Pod) (first : ContainerStatus)
    (rest1 rest2 : List ContainerStatus)
    (hname1 : request1.Params.Arguments.index "name" = Value.str name1)
    (hns1 : request1.Params.Arguments.index "namespace" = Value.str ns1)
    (hname2 : request2.Params.Arguments.index "name" = Value.str name2)
    (hns2 : request2.Params.Arguments.index "namespace" = Value.str ns2)
    (hget1 : clientset1.Get ns1 name1 = Except.ok pod1)
    (hget2 : clientset2.Get ns2 name2 = Except.ok pod2)
    (hst1 : pod1.Status.ContainerStatuses = some (first :: rest1))
    (hst2 : pod2.Status.ContainerStatuses = some (first :: rest2))
    (hName : pod1.Name = pod2.Name) (hNamespace : pod1.Namespace = pod2.Namespace)
    (hCount : pod1.Spec.Containers.length = pod2.Spec.Containers.length) :
    newPodInspectHandler sprintState clientset1 request1
        = newPodInspectHandler sprintState clientset2 request2
      ∧ newPodInspectHandler sprintState clientset1 request1
        = if first.RestartCount > 0 then
            Outcome.ok (NewToolResultText
              ("Pod " ++ pod1.Name ++ " in namespace " ++ pod1.Namespace
                ++ " restart with status " ++ sprintState first.LastTerminationState))
          else
            Outcome.ok (NewToolResultText
              ("Pod " ++ pod1.Name ++ " in namespace " ++ pod1.Namespace ++ " has "
                ++ toString pod1.Spec.Containers.length ++ " containers")) := by
  rw [handler_of_fetched sprintState clientset1 request1 name1 ns1 pod1 _ hname1 hns1 hget1 hst1,
    handler_of_fetched sprintState clientset2 request2 name2 ns2 pod2 _ hname2 hns2 hget2 hst2,
    rangeLoop_cons, rangeLoop_cons]
  refine ⟨?_, rfl⟩
  simp only [restartText, containersText, hName, hNamespace, hCount]

/-- C10, at a concrete pair: web-7f in prod with first status sidecar (no restart),
once followed by a restarted app container and once alone. -/
theorem pod_inspect_first_status_decides_witness :
    newPodInspectHandler sprintContainerState
        (clientReturning (webPod (some [⟨"sidecar", 0, noState⟩, ⟨"app", 3, oomKilled⟩])))
        inspectWeb
      = newPodInspectHandler sprintContainerState
        (clientReturning (webPod (some [⟨"sidecar", 0, noState⟩]))) inspectWeb
      ∧ newPodInspectHandler sprintContainerState
        (clientReturning (webPod (some [⟨"sidecar", 0, noState⟩, ⟨"app", 3, oomKilled⟩])))
        inspectWeb
      = Outcome.ok (NewToolResultText "Pod web-7f in namespace prod has 2 containers") :=
  pod_inspect_first_status_decides sprintContainerState
    (clientReturning (webPod (some [⟨"sidecar", 0, noState⟩, ⟨"app", 3, oomKilled⟩])))
    (clientReturning (webPod (some [⟨"sidecar", 0, noState⟩]))) inspectWeb inspectWeb
    "web-7f" "prod" "web-7f" "prod"
    (webPod (some [⟨"sidecar", 0, noState⟩, ⟨"app", 3, oomKilled⟩]))
    (webPod (some [⟨"sidecar", 0, noState⟩])) ⟨"sidecar", 0, noState⟩
    [⟨"app", 3, oomKilled⟩] [] rfl rfl rfl rfl rfl rfl rfl rfl rfl rfl rfl

/-- C5, as the code has it: when the fetched pod has a non-empty containerStatuses
whose entries all have restartCount 0, the handler returns the text
"Pod <name> in namespace <namespace> has <n> containers", where n is the length of
the pod spec container list and not of containerStatuses; the text says nothing
about restarts. -/
theorem pod_inspect_no_restart_declared_count (sprintState : ContainerState → String)
    (clientset : Clientset) (request : CallToolRequest) (name ns : String) (pod : Pod)
    (statuses : List ContainerStatus)
    (hname : request.Params.Arguments.index "name" = Value.str name)
    (hns : request.Params.Arguments.index "namespace" = Value.str ns)
    (hget : clientset.Get ns name = Except.ok pod)
    (hst : pod.Status.ContainerStatuses = some statuses)
    (hne : statuses ≠ [])
    (hzero : ∀ c ∈ statuses, c.RestartCount = 0) :
    newPodInspectHandler sprintState clientset request
      = Outcome.ok (NewToolResultText
          ("Pod " ++ pod.Name ++ " in namespace " ++ pod.Namespace ++ " has "
            ++ toString pod.Spec.Containers.length ++ " containers")) := by
  rw [handler_of_fetched sprintState clientset request name ns pod statuses hname hns hget hst]
  cases statuses with
  | nil => exact absurd rfl hne
  | cons first rest =>
    have h0 : first.RestartCount = 0 := hzero first (List.mem_cons_self first rest)
    rw [rangeLoop_cons, if_neg (by omega)]
    rfl

/-- C5 amended, at a concrete call: web-7f in prod declares two containers and only
one status is reported, with no restart; the count in the text is 2. -/
theorem pod_inspect_no_restart_declared_count_witness :
    [(⟨"app", 0, noState⟩ : ContainerStatus)] ≠ []
      ∧ (∀ c ∈ [(⟨"app", 0, noState⟩ : ContainerStatus)], c.RestartCount = 0)
      ∧ newPodInspectHandler sprintContainerState
          (clientReturning (webPod (some [⟨"app", 0, noState⟩]))) inspectWeb
        = Outcome.ok (NewToolResultText "Pod web-7f in namespace prod has 2 containers") :=
  ⟨by decide, by decide,
    pod_inspect_no_restart_declared_count sprintContainerState
      (clientReturning (webPod (some [⟨"app", 0, noState⟩]))) inspectWeb "web-7f" "prod"
      (webPod (some [⟨"app", 0, noState⟩])) [⟨"app", 0, noState⟩] rfl rfl rfl rfl
      (by decide) (by decide)⟩

/-- C5 fails: for web-7f in prod with the statuses app and sidecar, neither
restarted, the text is "Pod web-7f in namespace prod has 2 containers"; it mentions
no restart. -/
theorem pod_inspect_no_restart_text_silent :
    newPodInspectHandler sprintContainerState
        (clientReturning (webPod (some [⟨"app", 0, noState⟩, ⟨"sidecar", 0, noState⟩])))
        inspectWeb
        = Outcome.ok (NewToolResultText "Pod web-7f in namespace prod has 2 containers")
      ∧ mentions "Pod web-7f in namespace prod has 2 containers" "restart" = false
      ∧ mentions "Pod web-7f in namespace prod has 2 containers" "no " = false
      ∧ mentions "Pod web-7f in namespace prod has 2 containers" "none" = false := by
  refine ⟨rfl, ?_, ?_, ?_⟩ <;> decide

/-- C2, as the code has it: when the first entry of containerStatuses has a positive
restartCount and every other entry has restartCount 0, the handler returns the text
"Pod <name> in namespace <namespace> restart with status <state>", where <state> is
the last termination state of that entry as printed under %s; the text carries
neither the name of the container nor its restart count. -/
theorem pod_inspect_single_restart_first_text (sprintState : ContainerState → String)
    (clientset : Clientset) (request : CallToolRequest) (name ns : String) (pod : Pod)
    (first : ContainerStatus) (rest : List ContainerStatus)
    (hname : request.Params.Arguments.index "name" = Value.str name)
    (hns : request.Params.Arguments.index "namespace" = Value.str ns)
    (hget : clientset.Get ns name = Except.ok pod)
    (hst : pod.Status.ContainerStatuses = some (first :: rest))
    (hfirst : first.RestartCount > 0)
    (hrest : ∀ c ∈ rest, c.RestartCount = 0) :
    newPodInspectHandler sprintState clientset request
      = Outcome.ok (NewToolResultText
          ("Pod " ++ pod.Name ++ " in namespace " ++ pod.Namespace
            ++ " restart with status " ++ sprintState first.LastTerminationState)) := by
  rw [handler_of_fetched sprintState clientset request name ns pod _ hname hns hget hst,
    rangeLoop_cons, if_pos hfirst]
  rfl

set_option maxRecDepth 100000 in
/-- C2 amended, at the example of the specification: web-7f in prod with statuses
app (3 restarts, OOMKilled) and sidecar (no restart). -/
theorem pod_inspect_single_restart_first_text_witness :
    (3 : Int) > 0
      ∧ (∀ c ∈ [(⟨"sidecar", 0, noState⟩ : ContainerStatus)], c.RestartCount = 0)
      ∧ newPodInspectHandler sprintContainerState
          (clientReturning (webPod (some [⟨"app", 3, oomKilled⟩, ⟨"sidecar", 0, noState⟩])))
          inspectWeb
        = Outcome.ok (NewToolResultText "Pod web-7f in namespace prod restart with status \x7bnil nil &ContainerStateTerminated\x7bExitCode:137,Signal:0,Reason:OOMKilled,Message:,StartedAt:2024-05-01 10:00:00 +0000 UTC,FinishedAt:2024-05-01 10:05:00 +0000 UTC,ContainerID:containerd://5f1c,\x7d\x7d") :=
  ⟨by decide, by decide,
    pod_inspect_single_restart_first_text sprintContainerState
      (clientReturning (webPod (some [⟨"app", 3, oomKilled⟩, ⟨"sidecar", 0, noState⟩])))
      inspectWeb "web-7f" "prod"
      (webPod (some [⟨"app", 3, oomKilled⟩, ⟨"sidecar", 0, noState⟩]))
      ⟨"app", 3, oomKilled⟩ [⟨"sidecar", 0, noState⟩] rfl rfl rfl rfl
      (by decide) (by decide)⟩

set_option maxRecDepth 100000 in
/-- C2 fails at the example of the specification: for web-7f in prod with statuses
app (3 restarts, OOMKilled) and sidecar (no restart) the text mentions "web-7f",
"prod" and "OOMKilled" and does not mention the container name "app"; with the two
statuses in the other order the text is "Pod web-7f in namespace prod has 2
containers", which mentions neither "app" nor "OOMKilled" nor the count 3. -/
theorem pod_inspect_single_restart_omits_container :
    newPodInspectHandler sprintContainerState
        (clientReturning (webPod (some [⟨"app", 3, oomKilled⟩, ⟨"sidecar", 0, noState⟩])))
        inspectWeb
        = Outcome.ok (NewToolResultText "Pod web-7f in namespace prod restart with status \x7bnil nil &ContainerStateTerminated\x7bExitCode:137,Signal:0,Reason:OOMKilled,Message:,StartedAt:2024-05-01 10:00:00 +0000 UTC,FinishedAt:2024-05-01 10:05:00 +0000 UTC,ContainerID:containerd://5f1c,\x7d\x7d")
      ∧ mentions "Pod web-7f in namespace prod restart with status \x7bnil nil &ContainerStateTerminated\x7bExitCode:137,Signal:0,Reason:OOMKilled,Message:,StartedAt:2024-05-01 10:00:00 +0000 UTC,FinishedAt:2024-05-01 10:05:00 +0000 UTC,ContainerID:containerd://5f1c,\x7d\x7d" "web-7f" = true
      ∧ mentions "Pod web-7f in namespace prod restart with status \x7bnil nil &ContainerStateTerminated\x7bExitCode:137,Signal:0,Reason:OOMKilled,Message:,StartedAt:2024-05-01 10:00:00 +0000 UTC,FinishedAt:2024-05-01 10:05:00 +0000 UTC,ContainerID:containerd://5f1c,\x7d\x7d" "prod" = true
      ∧ mentions "Pod web-7f in namespace prod restart with status \x7bnil nil &ContainerStateTerminated\x7bExitCode:137,Signal:0,Reason:OOMKilled,Message:,StartedAt:2024-05-01 10:00:00 +0000 UTC,FinishedAt:2024-05-01 10:05:00 +0000 UTC,ContainerID:containerd://5f1c,\x7d\x7d" "OOMKilled" = true
      ∧ mentions "Pod web-7f in namespace prod restart with status \x7bnil nil &ContainerStateTerminated\x7bExitCode:137,Signal:0,Reason:OOMKilled,Message:,StartedAt:2024-05-01 10:00:00 +0000 UTC,FinishedAt:2024-05-01 10:05:00 +0000 UTC,ContainerID:containerd://5f1c,\x7d\x7d" "app" = false
      ∧ newPodInspectHandler sprintContainerState
          (clientReturning (webPod (some [⟨"sidecar", 0, noState⟩, ⟨"app", 3, oomKilled⟩])))
          inspectWeb
        = Outcome.ok (NewToolResultText "Pod web-7f in namespace prod has 2 containers")
      ∧ mentions "Pod web-7f in namespace prod has 2 containers" "app" = false
      ∧ mentions "Pod web-7f in namespace prod has 2 containers" "OOMKilled" = false
      ∧ mentions "Pod web-7f in namespace prod has 2 containers" "3" = false := by
  refine ⟨by decide, by decide, by decide, by decide, by decide, by decide, by decide,
    by decide, by decide⟩

/-- C1, as the code has it: when two or more entries of containerStatuses have a
positive restartCount and the first entry is one of them, the handler returns the
text "Pod <name> in namespace <namespace> restart with status <state>", where
<state> is the last termination state of the first entry as printed under %s; the
text reports that one state and does not list the restarted containers. -/
theorem pod_inspect_many_restarts_first_state (sprintState : ContainerState → String)
    (clientset : Clientset) (request : CallToolRequest) (name ns : String) (pod : Pod)
    (first : ContainerStatus) (rest : List ContainerStatus)
    (hname : request.Params.Arguments.index "name" = Value.str name)
    (hns : request.Params.Arguments.index "namespace" = Value.str ns)
    (hget : clientset.Get ns name = Except.ok pod)
    (hst : pod.Status.ContainerStatuses = some (first :: rest))
    (hfirst : first.RestartCount > 0)
    (hmany : 2 ≤ ((first :: rest).filter (fun c => decide (c.RestartCount > 0))).length) :
    newPodInspectHandler sprintState clientset request
      = Outcome.ok (NewToolResultText
          ("Pod " ++ pod.Name ++ " in namespace " ++ pod.Namespace
            ++ " restart with status " ++ sprintState first.LastTerminationState)) := by
  rw [handler_of_fetched sprintState clientset request name ns pod _ hname hns hget hst,
    rangeLoop_cons, if_pos hfirst]
  rfl

set_option maxRecDepth 100000 in
/-- C1 amended, at a concrete call: web-7f in prod with statuses app (3 restarts,
OOMKilled) and sidecar (2 restarts, Error). -/
theorem pod_inspect_many_restarts_first_state_witness :
    (3 : Int) > 0
      ∧ 2 ≤ (([⟨"app", 3, oomKilled⟩, ⟨"sidecar", 2, exitedWithError⟩] :
          List ContainerStatus).filter (fun c => decide (c.RestartCount > 0))).length
      ∧ newPodInspectHandler sprintContainerState
          (clientReturning
            (webPod (some [⟨"app", 3, oomKilled⟩, ⟨"sidecar", 2, exitedWithError⟩])))
          inspectWeb
        = Outcome.ok (NewToolResultText "Pod web-7f in namespace prod restart with status \x7bnil nil &ContainerStateTerminated\x7bExitCode:137,Signal:0,Reason:OOMKilled,Message:,StartedAt:2024-05-01 10:00:00 +0000 UTC,FinishedAt:2024-05-01 10:05:00 +0000 UTC,ContainerID:containerd://5f1c,\x7d\x7d") :=
  ⟨by decide, by decide,
    pod_inspect_many_restarts_first_state sprintContainerState
      (clientReturning (webPod (some [⟨"app", 3, oomKilled⟩, ⟨"sidecar", 2, exitedWithError⟩])))
      inspectWeb "web-7f" "prod"
      (webPod (some [⟨"app", 3, oomKilled⟩, ⟨"sidecar", 2, exitedWithError⟩]))
      ⟨"app", 3, oomKilled⟩ [⟨"sidecar", 2, exitedWithError⟩] rfl rfl rfl rfl
      (by decide) (by decide)⟩

set_option maxRecDepth 100000 in
/-- C1 fails: for web-7f in prod with statuses app (3 restarts) and sidecar (2
restarts) the text mentions neither "app" nor "sidecar"; with a first status proxy
(no restart) put before them the text is "Pod web-7f in namespace prod has 2
containers", which mentions neither of the two restarted containers. -/
theorem pod_inspect_many_restarts_not_listed :
    newPodInspectHandler sprintContainerState
        (clientReturning
          (webPod (some [⟨"app", 3, oomKilled⟩, ⟨"sidecar", 2, exitedWithError⟩])))
        inspectWeb
        = Outcome.ok (NewToolResultText "Pod web-7f in namespace prod restart with status \x7bnil nil &ContainerStateTerminated\x7bExitCode:137,Signal:0,Reason:OOMKilled,Message:,StartedAt:2024-05-01 10:00:00 +0000 UTC,FinishedAt:2024-05-01 10:05:00 +0000 UTC,ContainerID:containerd://5f1c,\x7d\x7d")
      ∧ mentions "Pod web-7f in namespace prod restart with status \x7bnil nil &ContainerStateTerminated\x7bExitCode:137,Signal:0,Reason:OOMKilled,Message:,StartedAt:2024-05-01 10:00:00 +0000 UTC,FinishedAt:2024-05-01 10:05:00 +0000 UTC,ContainerID:containerd://5f1c,\x7d\x7d" "app" = false
      ∧ mentions "Pod web-7f in namespace prod restart with status \x7bnil nil &ContainerStateTerminated\x7bExitCode:137,Signal:0,Reason:OOMKilled,Message:,StartedAt:2024-05-01 10:00:00 +0000 UTC,FinishedAt:2024-05-01 10:05:00 +0000 UTC,ContainerID:containerd://5f1c,\x7d\x7d" "sidecar" = false
      ∧ newPodInspectHandler sprintContainerState
          (clientReturning (webPod (some [⟨"proxy", 0, noState⟩, ⟨"app", 3, oomKilled⟩,
            ⟨"sidecar", 2, exitedWithError⟩])))
          inspectWeb
        = Outcome.ok (NewToolResultText "Pod web-7f in namespace prod has 2 containers")
      ∧ mentions "Pod web-7f in namespace prod has 2 containers" "app" = false
      ∧ mentions "Pod web-7f in namespace prod has 2 containers" "sidecar" = false := by
  refine ⟨by decide, by decide, by decide, by decide, by decide, by decide⟩

end McpK8s
